import Mathlib

/-!
Verification of `scholar_scraper` (src/scholar_scraper/utils.py) against its
natural-language specification.

The development shallowly embeds the parts of `utils.py` that the claims are
about:

* YAML-like structured values (`Yaml`) stand for the Python dicts/lists that
  the SerpApi client returns and `save_yaml`/`load_yaml` persist.
* The on-disk cache directory is a `Store`: an association list from paths to
  file contents.  The list order fixes one enumeration of the directory;
  `pathlib.Path.glob` guarantees no enumeration order (and the source never
  sorts the globbed files), so a fact that depends on the enumeration must be
  proved for every permutation of the store, not read off one fixed order.
  `save_yaml` truncates an existing file in place and creates a fresh one,
  so a write to an existing path replaces in place and a write to a fresh
  path appends within the chosen enumeration.
* Fallible Python code (KeyError, AttributeError, AssertionError, the
  RuntimeError raised for an error response) is modelled in `Except String`.
* Remote services are modelled by the sequence of responses they would give
  to the successive requests of one query (the parameter dictionary, the API
  key taken from the environment and the `num` default only shape those
  requests, so they are absorbed into that sequence).
-/

namespace ScholarScraper

/-! ### String helpers (ASCII models of the Python string methods used) -/

/-- Model of Python `str.lower()` (ASCII range, which covers the data used). -/
def strLower (s : String) : String := String.mk (s.data.map Char.toLower)

/-- Model of Python `s.replace("…", "")`: remove every ellipsis glyph. -/
def stripEllipsis (s : String) : String := String.mk (s.data.filter (fun c => !(c == '…')))

/-- Model of Python `s.replace("-", "")`: remove every dash. -/
def stripDashes (s : String) : String := String.mk (s.data.filter (fun c => !(c == '-')))

/-- Model of Python `str.strip()`: drop leading and trailing whitespace. -/
def stripWs (s : String) : String :=
  String.mk (((s.data.dropWhile Char.isWhitespace).reverse.dropWhile Char.isWhitespace).reverse)

/-- Worker for `strSplitOn`; the fuel (initially the length of the text)
bounds the recursion, and each step consumes at least one character. -/
def splitOnAuxF (sep : List Char) : Nat → List Char → List Char → List (List Char)
  | 0, cs, acc => [acc.reverse ++ cs]
  | fuel + 1, cs, acc =>
    match cs with
    | [] => [acc.reverse]
    | c :: rest =>
      if sep.isPrefixOf (c :: rest) then
        acc.reverse :: splitOnAuxF sep fuel (List.drop (sep.length - 1) rest) []
      else
        splitOnAuxF sep fuel rest (c :: acc)

/-- Model of Python `s.split(sep)` with an explicit non-empty separator:
split at every occurrence, without merging adjacent separators. -/
def strSplitOn (s sep : String) : List String :=
  if sep.data = [] then [s]
  else (splitOnAuxF sep.data s.data.length s.data []).map String.mk

/-- Model of the Python substring test `needle in hay`. -/
def isSubstrOf (needle hay : String) : Bool :=
  (List.range (hay.data.length + 1)).any (fun i => needle.data.isPrefixOf (hay.data.drop i))

/-! ### YAML-like values -/

/-- Structured values: the Python dicts/lists/strings/ints moved between the
SerpApi client and the YAML files.  Dicts keep insertion order. -/
inductive Yaml : Type where
  | str : String → Yaml
  | num : Nat → Yaml
  | list : List Yaml → Yaml
  | map : List (String × Yaml) → Yaml

/-- Model of Python `d.get(k)` on a response dict: `none` when absent. -/
def Yaml.get? : Yaml → String → Option Yaml
  | .map kvs, k => kvs.lookup k
  | _, _ => none

/-- Model of Python `d[k]`: KeyError when the key is absent. -/
def Yaml.getE : Yaml → String → Except String Yaml
  | y, k =>
    match y.get? k with
    | some v => .ok v
    | none => .error ("KeyError: " ++ k)

/-- Model of `d[k]` followed by use as a list (`output += results[key]`). -/
def Yaml.getList : Yaml → String → Except String (List Yaml)
  | y, k =>
    match y.get? k with
    | some (.list xs) => .ok xs
    | some _ => .error ("TypeError: value under " ++ k ++ " is not a list")
    | none => .error ("KeyError: " ++ k)

/-- Model of `d[k]` followed by use as a string. -/
def Yaml.getStr : Yaml → String → Except String String
  | y, k =>
    match y.get? k with
    | some (.str s) => .ok s
    | some _ => .error ("TypeError: value under " ++ k ++ " is not a str")
    | none => .error ("KeyError: " ++ k)

/-- Model of Python dict assignment `d[k] = v`: an existing key keeps its
position, a new key is appended (Python 3.7+ dict order). -/
def Yaml.set : Yaml → String → Yaml → Yaml
  | .map kvs, k, v =>
    if kvs.any (fun kv => kv.1 == k) then
      .map (kvs.map (fun kv => if kv.1 == k then (k, v) else kv))
    else
      .map (kvs ++ [(k, v)])
  | y, _, _ => y

/-! ### Parsed result pages (the BeautifulSoup view used by `parse_authors`) -/

/-- An `<a>` element inside the author block. -/
structure Anchor where
  text : String
  href : String
  deriving Repr, DecidableEq

/-- An author block (`div.gs_fmaa` or `div.gs_a`): its text and its anchors. -/
structure AuthorBlock where
  text : String
  anchors : List Anchor
  deriving Repr, DecidableEq

/-- The primary result block `div.gs_ri` of a rendered result page. -/
structure GsRi where
  /-- Text of `h3.gs_rt`, `none` when the element is absent. -/
  title : Option String
  gs_fmaa : Option AuthorBlock
  gs_a : Option AuthorBlock
  deriving Repr, DecidableEq

/-- A fetched result page as `parse_authors` inspects it. -/
structure PageDoc where
  /-- The `div.gs_ri` block, `none` when absent from the page. -/
  gs_ri : Option GsRi
  deriving Repr, DecidableEq

/-! ### The on-disk cache -/

/-- File names.  Paginated pages are written under the computed name
`f"{key}_{start}-{end}.yaml"`, which is exactly what the glob pattern
`f"{key}_[0-9]*-[0-9]*.yaml"` matches back; every other name used by the
code is a fixed string. -/
inductive FName where
  | page (key : String) (lo hi : Nat)
  | plain (s : String)
  deriving Repr, DecidableEq

/-- A path is the list of its components. -/
abbrev Path := List FName

/-- Contents of a cache file: a YAML document or a saved HTML page. -/
inductive FileData where
  | yaml (y : Yaml)
  | html (d : PageDoc)

/-- The cache directory tree.  The list order fixes one (arbitrary)
enumeration of the directory entries; the on-disk state is the store up to
permutation, since the filesystem guarantees no enumeration order. -/
abbrev Store := List (Path × FileData)

/-- Model of `save_yaml` / writing a file: overwriting an existing file keeps
its directory position, creating a file appends it. -/
def writeFile (fs : Store) (p : Path) (v : FileData) : Store :=
  if fs.any (fun e => e.1 == p) then
    fs.map (fun e => if e.1 == p then (p, v) else e)
  else
    fs ++ [(p, v)]

/-- Look a file up. -/
def readFile? (fs : Store) (p : Path) : Option FileData :=
  (fs.find? (fun e => e.1 == p)).map (fun e => e.2)

/-- Model of `Path.is_file()`. -/
def isFile (fs : Store) (p : Path) : Bool :=
  (readFile? fs p).isSome

/-- Model of `Path.unlink()`. -/
def deleteFile (fs : Store) (p : Path) : Store :=
  fs.filter (fun e => !(e.1 == p))

/-- Does the file name match the glob pattern `f"{key}_[0-9]*-[0-9]*.yaml"`? -/
def matchesPagePattern (key : String) : FName → Bool
  | .page k _ _ => k == key
  | .plain _ => false

/-- Is `p` a file directly inside `dir` whose name matches the page pattern? -/
def inDirMatching (dir : Path) (key : String) (p : Path) : Bool :=
  match p.getLast? with
  | some n => (p.dropLast == dir) && matchesPagePattern key n
  | none => false

/-- Model of `out_path.glob(f"{key}_[0-9]*-[0-9]*.yaml")`: the matching files
in the enumeration order the store fixes.  `pathlib.Path.glob` enumerates via
`os.scandir` in an arbitrary, filesystem-dependent order and the source does
not sort, so no particular enumeration (in particular not the order the files
were written in) is guaranteed: an order-sensitive property of a reload must
hold for every permutation of the store. -/
def globPages (fs : Store) (dir : Path) (key : String) : List (Path × FileData) :=
  fs.filter (fun e => inDirMatching dir key e.1)

/-- Python interpolates `None` into the glob pattern as the text `"None"`. -/
def keyString : Option String → String
  | some k => k
  | none => "None"

/-- One step of the cached-load loop: `output += load_yaml(file)[key]`. -/
def loadPage (key : Option String) (acc : List Yaml) (e : Path × FileData) :
    Except String (List Yaml) :=
  match e.2 with
  | .yaml y =>
    match key with
    | some k =>
      match y.getList k with
      | .ok xs => .ok (acc ++ xs)
      | .error er => .error er
    | none => .error "KeyError: None"
  | .html _ => .error "yaml parse error"

/-- The cached-load loop over the globbed page files. -/
def loadPages (key : Option String) (files : List (Path × FileData)) :
    Except String (List Yaml) :=
  files.foldlM (loadPage key) []

/-- The item block one page file contributes to a cached load
(`load_yaml(file)[key]`), independent of the accumulator. -/
def pageLoad (k : String) (e : Path × FileData) : Except String (List Yaml) :=
  match e.2 with
  | .yaml y => y.getList k
  | .html _ => .error "yaml parse error"

/-- The item block of a page file whose load succeeds (`[]` otherwise). -/
def pageBlock (k : String) (e : Path × FileData) : List Yaml :=
  ((pageLoad k e).toOption).getD []

/-! ### `search` (ResultCache + PaginatedFetcher, utils.py lines 60-119) -/

/-- Does the response announce a continuation
(`"next" in results.get("serpapi_pagination", [])`)? -/
def hasNext (results : Yaml) : Bool :=
  match results.get? "serpapi_pagination" with
  | some (.map kvs) => kvs.any (fun kv => kv.1 == "next")
  | some (.list xs) =>
    xs.any (fun y => match y with | .str s => s == "next" | _ => false)
  | _ => false

/-- Result of a `search` call: the returned value, the cache afterwards, and
the number of remote fetches that were performed. -/
structure FetchResult where
  output : Yaml
  fs : Store
  fetches : Nat

/-- The live-fetch loop of `search` (utils.py lines 80-119).  `remote` is the
sequence of responses the service gives to this query's successive requests;
following the `next` continuation is modelled by moving to the next response. -/
def searchLoop (key : Option String) (paginate : Bool) (outPath : Option Path)
    (fs : Store) (remote : List Yaml) (output : List Yaml) (fetches : Nat) :
    Except String FetchResult :=
  match remote with
  | [] => .error "remote service gave no response"
  | results :: rest =>
    -- raise RuntimeError(results["error"]) when the response carries an error
    if (results.get? "error").isSome then
      .error "RuntimeError: response carries an error field"
    else
      match key with
      | none =>
        -- assert not paginate
        if paginate then .error "AssertionError: paginate without a key"
        else
          -- output = results; save_yaml(results, out_path); break
          let fs1 := match outPath with
            | some p => writeFile fs p (.yaml results)
            | none => fs
          .ok ⟨results, fs1, fetches + 1⟩
      | some k =>
        -- new_output = results[key]; output += new_output
        match results.getList k with
        | .error e => .error e
        | .ok newOutput =>
          let output1 := output ++ newOutput
          -- save the raw response under f"{key}_{len(output)-len(new_output)}-{len(output)}.yaml"
          let fs1 := match outPath with
            | some p =>
              if paginate then
                writeFile fs
                  (p ++ [.page k (output1.length - newOutput.length) output1.length])
                  (.yaml results)
              else
                writeFile fs p (.yaml results)
            | none => fs
          if paginate && hasNext results then
            searchLoop key paginate outPath fs1 rest output1 (fetches + 1)
          else
            .ok ⟨.list output1, fs1, fetches + 1⟩

/-- Model of `search` (utils.py lines 60-119). -/
def search (key : Option String) (paginate : Bool) (outPath : Option Path)
    (overwrite : Bool) (fs : Store) (remote : List Yaml) :
    Except String FetchResult :=
  match outPath, overwrite with
  | some p, false =>
    if paginate then
      let files := globPages fs p (keyString key)
      if 0 < files.length then
        match loadPages key files with
        | .ok out => .ok ⟨.list out, fs, 0⟩
        | .error e => .error e
      else
        searchLoop key paginate (some p) fs remote [] 0
    else if isFile fs p then
      -- return load_yaml(out_path): the entire raw response mapping
      match readFile? fs p with
      | some (.yaml y) => .ok ⟨y, fs, 0⟩
      | _ => .error "yaml parse error"
    else
      searchLoop key paginate (some p) fs remote [] 0
  | _, _ => searchLoop key paginate outPath fs remote [] 0

/-! ### `parse_authors` (ArticleExtractor, utils.py lines 165-209) -/

/-- Python truncation bound `MAX_LEN`. -/
def MAX_LEN : Nat := 30

/-- An author record as `parse_authors` builds it (a dict `{"name": ...}`
optionally updated with `link` and `author_id`, later enriched with
`author` and `cited_by`). -/
structure AuthorRec where
  name : String
  link : Option String := none
  author_id : Option String := none
  author : Option Yaml := none
  cited_by : Option Yaml := none

/-- Python dict comprehension: for duplicate keys the LAST value wins. -/
def dictLookup (kvs : List (String × String)) (k : String) : Option String :=
  kvs.reverse.lookup k

/-- Python slice `href[16:28]`. -/
def strSlice (s : String) (a b : Nat) : String :=
  String.mk ((s.data.drop a).take (b - a))

/-- Parent directory (`out_path.parent`). -/
def parentDir (p : Path) : Path := p.dropLast

/-- Model of `parse_authors` (utils.py lines 165-209).  `remote url` is the
page `requests.get(url)` would fetch.  The result also reports the cache
afterwards and how many fetches were performed; Python exceptions become
`Except.error` (the store changes made before an exception persist on disk,
but the aborting caller never sees them, so they are dropped here). -/
def parse_authors (url : String) (outPath : Option Path) (overwrite : Bool)
    (fs : Store) (remote : String → PageDoc) :
    Except String (String × List AuthorRec) × Store × Nat :=
  match outPath with
  | none =>
    -- `(out_path.parent / "authors.yaml")` dereferences out_path before
    -- anything else: the declared default out_path=None raises immediately
    (.error "AttributeError: NoneType object has no attribute parent", fs, 0)
  | some p =>
    -- unlink a sibling authors.yaml if present
    let sibling := parentDir p ++ [.plain "authors.yaml"]
    let fs := if isFile fs sibling then deleteFile fs sibling else fs
    -- load existing results, else open url (and persist the page)
    let (content, fs, fetches) :=
      if !overwrite && isFile fs p then
        (readFile? fs p, fs, 0)
      else
        (some (.html (remote url)), writeFile fs p (.html (remote url)), 1)
    match content with
    | some (.html doc) =>
      -- soup.find("div", {"class": "gs_ri"})
      match doc.gs_ri with
      | none =>
        (.error "AttributeError: NoneType object has no attribute find", fs, fetches)
      | some article =>
        -- article.find("h3", {"class": "gs_rt"}).get_text()
        match article.title with
        | none =>
          (.error "AttributeError: NoneType object has no attribute get_text", fs, fetches)
        | some title =>
          -- author block: gs_fmaa, falling back to gs_a (split on "- ")
          let info? : Option (AuthorBlock × String) :=
            match article.gs_fmaa with
            | some info => some (info, info.text)
            | none =>
              match article.gs_a with
              | some info => some (info, (strSplitOn info.text "- ").headI)
              | none => none
          match info? with
          | none =>
            (.error "AttributeError: NoneType object has no attribute get_text", fs, fetches)
          | some (authorInfo, authorNames) =>
            let authors := (strSplitOn authorNames ", ").map
              (fun name => ({ name := stripWs (stripEllipsis name) } : AuthorRec))
            let linkedAuthors := authorInfo.anchors.map (fun a => (a.text, a.href))
            let scholarUrl := "https://scholar.google.com"
            let authors := authors.map (fun a =>
              match dictLookup linkedAuthors a.name with
              | some href =>
                { a with link := some (scholarUrl ++ href),
                         author_id := some (strSlice href 16 28) }
              | none => a)
            (.ok (title, authors), fs, fetches)
    | _ => (.error "html decode error", fs, fetches)

/-! ### The reconciliation check of `get_citations` (utils.py lines 252-263) -/

/-- The title check of line 254:
`citation["title"].replace("…", "").strip().lower() in title.lower()`. -/
def titleMatches (citationTitle extractedTitle : String) : Bool :=
  isSubstrOf (strLower (stripWs (stripEllipsis citationTitle))) (strLower extractedTitle)

/-- The author check of lines 258-260: the set of lower-cased preview
(partial) author names is a subset of the lower-cased extracted names. -/
def authorsSubset (previewAuthors extractedNames : List String) : Bool :=
  (previewAuthors.map strLower).all (fun a => (extractedNames.map strLower).contains a)

/-- The title warning appended at lines 255-257 (empty list when none). -/
def titleWarnings (citationTitle extractedTitle : String) : List String :=
  if titleMatches citationTitle extractedTitle then []
  else ["Title missmatch: `" ++ citationTitle ++ "` and `" ++ extractedTitle ++ "`"]

/-- The author warning appended at lines 261-263 (empty list when none);
the Python list rendering inside the message is simplified to a
comma-separated rendering, which the claims do not inspect. -/
def authorWarnings (previewAuthors extractedNames : List String) : List String :=
  if authorsSubset previewAuthors extractedNames then []
  else ["Author missmatch: " ++ String.intercalate ", " previewAuthors
        ++ " and " ++ String.intercalate ", " extractedNames]

/-- The full `citation["warnings"]` list computed at lines 252-263. -/
def citationWarnings (citationTitle extractedTitle : String)
    (previewAuthors extractedNames : List String) : List String :=
  titleWarnings citationTitle extractedTitle
    ++ authorWarnings previewAuthors extractedNames

/-! ### The per-citation resolution of `get_citations` (utils.py lines 212-287) -/

/-- Rebuild the author dict in its Python key-insertion order. -/
def AuthorRec.toYaml (a : AuthorRec) : Yaml :=
  .map ([("name", Yaml.str a.name)]
    ++ (match a.link with | some l => [("link", Yaml.str l)] | none => [])
    ++ (match a.author_id with | some i => [("author_id", Yaml.str i)] | none => [])
    ++ (match a.author with | some y => [("author", y)] | none => [])
    ++ (match a.cited_by with | some y => [("cited_by", y)] | none => []))

/-- The body of `for citation in citations` (utils.py lines 226-285): the
single title+authors re-query, the raw-page parse, the reconciliation
warnings and the per-author enrichment.  `articleRemote`, `htmlRemote` and
`authorRemote` are the external services for this citation (the query
parameter dicts built from the citation only shape those requests). -/
def resolveCitation (outPath : Option Path) (overwrite : Bool) (fs : Store)
    (articleRemote : List Yaml) (htmlRemote : String → PageDoc)
    (authorRemote : String → List Yaml) (citation : Yaml) :
    Except String (Yaml × Store) := do
  -- partial_authors = [a["name"] for a in citation["publication_info"].get("authors", [])]
  let pubInfo ← citation.getE "publication_info"
  let previewAuthors ←
    match (pubInfo.get? "authors").getD (.list []) with
    | .list xs => xs.mapM (fun a => a.getStr "name")
    | _ => Except.error "TypeError: authors is not a list"
  let title ← citation.getStr "title"
  let resultId ← citation.getStr "result_id"
  -- citation_path = out_path / f"{citation['title'][:MAX_LEN]} ({citation['result_id']})"
  let citationPath ←
    match outPath with
    | some op =>
      Except.ok (op ++ [FName.plain (strSlice title 0 MAX_LEN ++ " (" ++ resultId ++ ")")])
    | none => Except.error "TypeError: unsupported operand NoneType / str"
  let r ← search none false (some (citationPath ++ [FName.plain "article.yaml"]))
    overwrite fs articleRemote
  -- url = results["search_metadata"]["raw_html_file"]
  let sm ← r.output.getE "search_metadata"
  let url ← sm.getStr "raw_html_file"
  let (pres, fs2, _) := parse_authors url
    (some (citationPath ++ [FName.plain "article.html"])) overwrite r.fs htmlRemote
  let (extractedTitle, authors) ← pres
  -- the reconciliation check (lines 252-263)
  let warnings := citationWarnings title extractedTitle previewAuthors
    (authors.map (fun a => a.name))
  let citation := citation.set "warnings" (.list (warnings.map .str))
  -- per-author profile queries (lines 271-282)
  let (fs3, enrichedRev) ← authors.foldlM
    (fun (acc : Store × List AuthorRec) a => do
      match a.author_id with
      | some aid => do
        let authorPath := citationPath ++ [FName.plain (aid ++ ".yaml")]
        let ra ← search none false (some authorPath) overwrite acc.1 (authorRemote aid)
        let authorVal ← ra.output.getE "author"
        let citedBy := (ra.output.get? "cited_by").getD (.num 0)
        pure (ra.fs,
          ({ a with author := some authorVal, cited_by := some citedBy } : AuthorRec)
            :: acc.2)
      | none => pure (acc.1, a :: acc.2))
    (fs2, ([] : List AuthorRec))
  let authors := enrichedRev.reverse
  -- citation["publication_info"]["authors"] = authors
  let pubInfo := pubInfo.set "authors" (.list (authors.map AuthorRec.toYaml))
  let citation := citation.set "publication_info" pubInfo
  pure (citation, fs3)

/-- Model of `get_citations` (utils.py lines 212-287).  `cites_id` only
parameterizes the paginated query, so it is absorbed into `citRemote`.
The `for citation in citations` loop has no try/except around its body:
the first exception aborts the whole call, discarding the work of every
remaining citation. -/
def get_citations (outPath : Option Path) (overwrite : Bool) (fs : Store)
    (citRemote : List Yaml) (articleRemote : Yaml → List Yaml)
    (htmlRemote : Yaml → String → PageDoc)
    (authorRemote : Yaml → String → List Yaml) :
    Except String (List Yaml × Store) := do
  let r ← search (some "organic_results") true outPath overwrite fs citRemote
  let citations ←
    match r.output with
    | .list cs => Except.ok cs
    | _ => Except.error "TypeError: citations is not a list"
  let (fs1, doneRev) ← citations.foldlM
    (fun (acc : Store × List Yaml) c => do
      let (c1, fsNext) ← resolveCitation outPath overwrite acc.1
        (articleRemote c) (htmlRemote c) (authorRemote c) c
      pure (fsNext, c1 :: acc.2))
    (r.fs, ([] : List Yaml))
  pure (doneRev.reverse, fs1)

/-! ### Affiliation matching (`get_citation_df`, utils.py lines 298-358) -/

/-- One row of the reference affiliation table after the normalization of
lines 301-303 (`extract_tld` applied to the non-NaN domain cells); a NaN
cell is `none`. -/
structure AffilRow where
  domain : Option String
  alt_domain : Option String
  affil_country : String
  affil_name : String
  deriving Repr, DecidableEq

/-- The fallback columns of lines 304-307: the dash-stripped form of each
non-NaN reference domain (`lambda s: s.replace("-", "")`). -/
def fallbackOf : Option String → Option String
  | some s => some (stripDashes s)
  | none => none

/-- Row predicate of the exact match (lines 327-330); a NaN cell compares
unequal to everything, like in pandas. -/
def exactMatchPred (mailDomain : String) (r : AffilRow) : Bool :=
  r.domain == some mailDomain || r.alt_domain == some mailDomain

/-- Row predicate of the fallback match (lines 333-339): the scraped mail
domain is compared against the dash-stripped reference columns. -/
def fallbackMatchPred (mailDomain : String) (r : AffilRow) : Bool :=
  fallbackOf r.domain == some mailDomain || fallbackOf r.alt_domain == some mailDomain

/-- The matched rows and the author-level warnings of lines 326-348. -/
structure AffilMatch where
  affil : List AffilRow
  warnings : List String
  deriving Repr, DecidableEq

/-- Model of the affiliation-matching block (utils.py lines 326-348). -/
def matchAffiliation (affilDf : List AffilRow) (mailDomain : String) : AffilMatch :=
  let affil := affilDf.filter (exactMatchPred mailDomain)
  let (affil, warnings) :=
    if affil.length = 0 then
      let fb := affilDf.filter (fallbackMatchPred mailDomain)
      (fb, if 1 < fb.length then ["Found affiliation without a dash: " ++ mailDomain]
           else ([] : List String))
    else (affil, ([] : List String))
  let warnings :=
    if 0 < affil.length then
      if 1 < affil.length then warnings ++ ["Found multiple affiliations: " ++ mailDomain]
      else warnings
    else warnings
  ⟨affil, warnings⟩

/-- The country/institution data applied from the first matching row when
warnings allow it (utils.py lines 344-355). -/
def appliedAffil (affilDf : List AffilRow) (mailDomain : String)
    (keepWarnings : Bool) : Option (String × String) :=
  let m := matchAffiliation affilDf mailDomain
  if 0 < m.affil.length then
    match m.affil.head? with
    | some r =>
      if m.warnings.isEmpty || keepWarnings then some (r.affil_country, r.affil_name)
      else none
    | none => none
  else none

/-! ### `get_country_name` (utils.py lines 290-295) and pycountry 24.6.1 -/

/-- The Python exceptions relevant to `get_country_name`. -/
inductive PyErr where
  | lookupError (msg : String)
  | attributeError (msg : String)
  deriving Repr, DecidableEq

/-- A row of the ISO 3166-1 table pycountry ships. -/
structure PyCountry where
  alpha_2 : String
  name : String
  deriving Repr, DecidableEq

/-- Model of pycountry 24.6.1 `Database.get(alpha_2=value)` (the version
pinned by setup.py): an empty value raises `LookupError`; a value missing
from the index returns the default `None` instead of raising; the index is
keyed case-insensitively. -/
def pycountry_countries_get (table : List PyCountry) (alpha2 : String) :
    Except PyErr (Option PyCountry) :=
  if alpha2 == "" then
    .error (.lookupError "can not lookup an empty value")
  else
    .ok (table.find? (fun c => strLower c.alpha_2 == strLower alpha2))

/-- Model of `get_country_name` (utils.py lines 290-295): only `LookupError`
is caught (and turned into the implicit `None` return); `country.name` on
the `None` that pycountry 24.6.1 returns for an unknown code raises an
`AttributeError`, which the `except LookupError` clause does not catch. -/
def get_country_name (table : List PyCountry) (abbrv_name : String) :
    Except PyErr (Option String) :=
  match pycountry_countries_get table abbrv_name with
  | .error (.lookupError _) => .ok none
  | .error e => .error e
  | .ok none => .error (.attributeError "NoneType object has no attribute name")
  | .ok (some c) => .ok (some c.name)

/-- A one-row reference table whose exact domain column holds the dashless
form (used to refute the fallback direction stated by the claim). -/
def affilRowsDashless : List AffilRow :=
  [{ domain := some "unicity.edu", alt_domain := none,
     affil_country := "AT", affil_name := "University of City" }]

/-- A one-row reference table whose domain carries a dash (the direction the
code actually supports). -/
def affilRowsDashed : List AffilRow :=
  [{ domain := some "uni-city.edu", alt_domain := none,
     affil_country := "AT", affil_name := "University of City" }]

/-- A three-row sample of the ISO 3166-1 alpha-2 table pycountry ships. -/
def countriesTable : List PyCountry :=
  [{ alpha_2 := "AT", name := "Austria" },
   { alpha_2 := "DE", name := "Germany" },
   { alpha_2 := "US", name := "United States" }]

/-! Concrete crawl inputs for the parse-failure claim: two citations, the
first of whose fetched pages lacks the primary `gs_ri` block. -/

/-- First citation of the batch (its raw page will be malformed). -/
def c6Citation1 : Yaml :=
  .map [("title", .str "Work One"), ("result_id", .str "r1"),
        ("publication_info", .map [("authors", .list [.map [("name", .str "A. Smith")]])])]

/-- Second citation of the batch (well-formed everywhere). -/
def c6Citation2 : Yaml :=
  .map [("title", .str "Work Two"), ("result_id", .str "r2"),
        ("publication_info", .map [("authors", .list [.map [("name", .str "B. Lee")]])])]

/-- The single page of citing works returned for the `cites` query. -/
def c6CitPage : Yaml := .map [("organic_results", .list [c6Citation1, c6Citation2])]

/-- The non-paginated title+authors response for either citation. -/
def c6ArticleResp : Yaml :=
  .map [("search_metadata", .map [("raw_html_file", .str "https://serpapi.com/raw.html")])]

/-- A malformed raw page: the expected `div.gs_ri` block is absent. -/
def c6BadPage : PageDoc := { gs_ri := none }

/-- A well-formed raw page for the second citation. -/
def c6GoodPage : PageDoc :=
  { gs_ri := some { title := some "Work Two",
                    gs_fmaa := some { text := "B. Lee", anchors := [] },
                    gs_a := none } }

/-- Raw pages by citation: the first citation's page is the malformed one. -/
def c6Html (c : Yaml) (_ : String) : PageDoc :=
  match c.get? "title" with
  | some (.str "Work One") => c6BadPage
  | _ => c6GoodPage

/-! Pagination scenarios for the `search` claims. -/

/-- The output location of the simulated paginated query. -/
def articlesDir : Path := [FName.plain "results"]

/-- Build a simulated service response: the items under the given key, plus a
continuation descriptor when another page follows. -/
def mkPage (key : String) (items : List Yaml) (next : Bool) : Yaml :=
  .map ([(key, Yaml.list items)]
    ++ if next then
        [("serpapi_pagination",
          Yaml.map [("next", Yaml.str "https://serpapi.com/search?start=next")])]
       else [])

/-- First simulated page of items. -/
def pageItems1 : List Yaml := [.num 0, .num 1, .num 2, .num 3, .num 4]

/-- Second simulated page of items. -/
def pageItems2 : List Yaml := [.num 5, .num 6, .num 7, .num 8, .num 9]

/-- Third simulated page of items. -/
def pageItems3 : List Yaml := [.num 10, .num 11]

/-- Concrete raw response for the C9 witness. -/
def c9Resp : List (String × Yaml) :=
  [("search_metadata", .map [("id", .str "m1")]), ("articles", .list [.num 1])]

/-- Fresh items for the first rewritten page in the C10 witness. -/
def freshItems1 : List Yaml := [.num 20, .num 21, .num 22, .num 23, .num 24]

/-- Fresh items for the second rewritten page in the C10 witness. -/
def freshItems2 : List Yaml := [.num 25, .num 26, .num 27, .num 28, .num 29]

/-- A well-formed persisted page file: its name carries a range `[a-b)` with
`b` within the number of items accumulated so far, and its content yields
exactly `b - a` items under the key. -/
def pageOK (k : String) (bound : Nat) (e : Path × FileData) : Prop :=
  ∃ a b y ys, e.1.getLast? = some (FName.page k a b) ∧ e.2 = FileData.yaml y
    ∧ y.getList k = .ok ys ∧ ys.length = b - a ∧ b ≤ bound

/-- The store left behind by the concrete three-page fresh run, in the
enumeration order the run wrote the files in. -/
def c4Store : Store :=
  [(articlesDir ++ [.page "articles" 0 5], .yaml (mkPage "articles" pageItems1 true)),
   (articlesDir ++ [.page "articles" 5 10], .yaml (mkPage "articles" pageItems2 true)),
   (articlesDir ++ [.page "articles" 10 12], .yaml (mkPage "articles" pageItems3 false))]

/-- The same three page files enumerated in lexicographic file-name order
("articles_0-5" < "articles_10-12" < "articles_5-10"), an equally admissible
filesystem enumeration of the directory `c4Store` describes. -/
def c4StoreLex : Store :=
  [(articlesDir ++ [.page "articles" 0 5], .yaml (mkPage "articles" pageItems1 true)),
   (articlesDir ++ [.page "articles" 10 12], .yaml (mkPage "articles" pageItems3 false)),
   (articlesDir ++ [.page "articles" 5 10], .yaml (mkPage "articles" pageItems2 true))]

/-! ### Theorems -/

/-- The Boolean author check agrees with the set-subset reading. -/
theorem authorsSubset_iff (pa en : List String) :
    authorsSubset pa en = true ↔ ∀ a ∈ pa, strLower a ∈ en.map strLower := by
  simp [authorsSubset, List.all_eq_true]

/-- C1: for every processed Citation, its Warning list is non-empty iff a
cross-source title mismatch (the check of utils.py line 254 fails) or an
author-set mismatch (the preview/partial author names are not a subset of
the extracted author names under case-insensitive comparison) was
detected. -/
theorem citation_warnings_nonempty_iff (ct et : String) (pa en : List String) :
    citationWarnings ct et pa en ≠ [] ↔
      (titleMatches ct et = false ∨ ¬ ∀ a ∈ pa, strLower a ∈ en.map strLower) := by
  rw [← authorsSubset_iff]
  unfold citationWarnings titleWarnings authorWarnings
  rcases h1 : titleMatches ct et <;> rcases h2 : authorsSubset pa en <;> simp [h1, h2]

/-- C2 (counterexample): with the Citation titled "Deep Learning for X" and
the extracted title "Deep Learning for X and Y", the code records no
warning, although the extracted title is not contained in the catalogued
title — so "a title Warning is recorded exactly when the extracted title
is not contained in the catalogued title" is false: the containment is
checked in the other direction. -/
theorem title_check_direction_counterexample :
    citationWarnings "Deep Learning for X" "Deep Learning for X and Y" [] [] = []
    ∧ isSubstrOf (strLower (stripWs (stripEllipsis "Deep Learning for X and Y")))
        (strLower "Deep Learning for X") = false := by
  exact ⟨rfl, rfl⟩

/-- C2 (amended): the title check compares by case-insensitive substring
containment of the citation's catalogued title (after stripping ellipsis
glyphs and surrounding whitespace) in the extracted title: a title Warning
is recorded exactly when the catalogued title is not contained in the
extracted title. -/
theorem citation_title_warning_iff (ct et : String) (pa en : List String) :
    citationWarnings ct et pa en = titleWarnings ct et ++ authorWarnings pa en
    ∧ (titleWarnings ct et ≠ [] ↔
        isSubstrOf (strLower (stripWs (stripEllipsis ct))) (strLower et) = false) := by
  refine ⟨rfl, ?_⟩
  unfold titleWarnings titleMatches
  rcases h : isSubstrOf (strLower (stripWs (stripEllipsis ct))) (strLower et) <;> simp [h]

/-- C5 (counterexample): the premises of the claim hold — the mail domain
"uni-city.edu" has no exact match, and "unicity.edu" is present in a
fallback column — yet the match fails, because the code dash-strips the
reference columns, not the scraped mail domain; the dashless mail domain
"unicity.edu" is the one that matches. -/
theorem affiliation_fallback_counterexample :
    (affilRowsDashless.filter (exactMatchPred "uni-city.edu")).length = 0
    ∧ (affilRowsDashless.map (fun r => fallbackOf r.domain)).contains (some "unicity.edu") = true
    ∧ (matchAffiliation affilRowsDashless "uni-city.edu").affil = []
    ∧ (matchAffiliation affilRowsDashless "uni-city.edu").warnings = [] := by
  exact ⟨rfl, rfl, rfl, rfl⟩

/-- C5 (amended): when the mail domain has no exact match in the primary or
alternate columns, matching is retried against the dash-stripped fallback
columns (the scraped, dash-less mail domain against the dash-stripped
reference domains), and a Warning is emitted iff more than one fallback
row matches. -/
theorem matchAffiliation_fallback (rows : List AffilRow) (mail : String)
    (hexact : rows.filter (exactMatchPred mail) = []) :
    (matchAffiliation rows mail).affil = rows.filter (fallbackMatchPred mail)
    ∧ ((matchAffiliation rows mail).warnings ≠ [] ↔
        1 < (rows.filter (fallbackMatchPred mail)).length) := by
  unfold matchAffiliation
  rw [hexact]
  rcases Nat.lt_or_ge 1 (rows.filter (fallbackMatchPred mail)).length with h | h
  · have h0 : 0 < (rows.filter (fallbackMatchPred mail)).length :=
      Nat.lt_of_le_of_lt (Nat.zero_le 1) h
    simp [h, h0]
  · have h1 : ¬ 1 < (rows.filter (fallbackMatchPred mail)).length := Nat.not_lt.mpr h
    simp [h1]

/-- Witness for the amended C5: the dashless mail domain "unicity.edu" has no
exact match against the dashed reference row, matches it via the fallback
column, and no Warning is emitted for the unambiguous single match. -/
theorem matchAffiliation_fallback_witness :
    affilRowsDashed.filter (exactMatchPred "unicity.edu") = []
    ∧ ((matchAffiliation affilRowsDashed "unicity.edu").affil
          = affilRowsDashed.filter (fallbackMatchPred "unicity.edu")
        ∧ ((matchAffiliation affilRowsDashed "unicity.edu").warnings ≠ [] ↔
            1 < (affilRowsDashed.filter (fallbackMatchPred "unicity.edu")).length)) :=
  ⟨rfl, matchAffiliation_fallback affilRowsDashed "unicity.edu" rfl⟩

/-- C7 (code evaluated at the failing input): a resolvable code is expanded
to the full country name, but a non-empty unresolvable code such as "XX"
raises an AttributeError instead of yielding an absent name: pycountry
24.6.1 returns `None` for a missing code rather than raising `LookupError`,
so `country.name` fails outside the protection of `except LookupError`
(only the empty value still takes the caught-LookupError path). -/
theorem get_country_name_unresolvable_raises :
    get_country_name countriesTable "XX"
      = .error (.attributeError "NoneType object has no attribute name")
    ∧ get_country_name countriesTable "AT" = .ok (some "Austria")
    ∧ get_country_name countriesTable "" = .ok none := by
  exact ⟨rfl, rfl, rfl⟩

/-- C8: calling `parse_authors` with its declared default `out_path=None`
raises an AttributeError before any fetch is attempted (fetch count 0, the
cache untouched), because the sibling "authors.yaml" check dereferences
`out_path.parent` unconditionally. -/
theorem parse_authors_none_out_path (url : String) (overwrite : Bool)
    (fs : Store) (remote : String → PageDoc) :
    parse_authors url none overwrite fs remote
      = (.error "AttributeError: NoneType object has no attribute parent", fs, 0) := rfl

/-- C6 (code evaluated at the failing input): a parse failure on the first
citation's page aborts the whole `get_citations` call with the
uncaught AttributeError instead of logging and continuing — the second
citation's (perfectly resolvable) data is lost.  The second conjunct shows
the sibling citation would have resolved without error had the loop
continued. -/
theorem get_citations_parse_failure_aborts :
    get_citations (some [FName.plain "article"]) true [] [c6CitPage]
        (fun _ => [c6ArticleResp]) c6Html (fun _ _ => [])
      = .error "AttributeError: NoneType object has no attribute find"
    ∧ (resolveCitation (some [FName.plain "article"]) true [] [c6ArticleResp]
        (c6Html c6Citation2) (fun _ => []) c6Citation2).isOk = true := by
  exact ⟨rfl, rfl⟩

/-- C3: for a service returning continuation tokens across 3 pages of 5/5/2
items under key "articles", `search` returns the 12 items in original
order and persists exactly 3 page files whose names encode the disjoint,
contiguous ranges 0-5, 5-10 and 10-12. -/
theorem search_pagination_three_pages (xs1 xs2 xs3 : List Yaml)
    (h1 : xs1.length = 5) (h2 : xs2.length = 5) (h3 : xs3.length = 2) :
    search (some "articles") true (some articlesDir) true []
      [mkPage "articles" xs1 true, mkPage "articles" xs2 true, mkPage "articles" xs3 false]
      = .ok ⟨.list (xs1 ++ xs2 ++ xs3),
          [(articlesDir ++ [.page "articles" 0 5], .yaml (mkPage "articles" xs1 true)),
           (articlesDir ++ [.page "articles" 5 10], .yaml (mkPage "articles" xs2 true)),
           (articlesDir ++ [.page "articles" 10 12], .yaml (mkPage "articles" xs3 false))],
          3⟩ := by
  simp [search, searchLoop, mkPage, hasNext, Yaml.get?, Yaml.getList, writeFile,
    List.lookup, articlesDir, h1, h2, h3, List.append_assoc]

/-- Witness for C3 at a concrete 5/5/2 instance. -/
theorem search_pagination_three_pages_witness :
    pageItems1.length = 5 ∧ pageItems2.length = 5 ∧ pageItems3.length = 2
    ∧ search (some "articles") true (some articlesDir) true []
        [mkPage "articles" pageItems1 true, mkPage "articles" pageItems2 true,
         mkPage "articles" pageItems3 false]
      = .ok ⟨.list (pageItems1 ++ pageItems2 ++ pageItems3),
          [(articlesDir ++ [.page "articles" 0 5], .yaml (mkPage "articles" pageItems1 true)),
           (articlesDir ++ [.page "articles" 5 10], .yaml (mkPage "articles" pageItems2 true)),
           (articlesDir ++ [.page "articles" 10 12], .yaml (mkPage "articles" pageItems3 false))],
          3⟩ :=
  ⟨rfl, rfl, rfl, search_pagination_three_pages pageItems1 pageItems2 pageItems3 rfl rfl rfl⟩

/-- Reading back a file just created at a path that had no file. -/
theorem readFile_write_fresh (fs : Store) (p : Path) (v : FileData)
    (h : isFile fs p = false) :
    readFile? (writeFile fs p v) p = some v := by
  have hfind : fs.find? (fun e => e.1 == p) = none := by
    unfold isFile readFile? at h
    cases hf : fs.find? (fun e => e.1 == p) with
    | none => rfl
    | some e => rw [hf] at h; simp at h
  have hany : fs.any (fun e => e.1 == p) = false := by
    rw [List.any_eq_false]
    intro e he
    have := List.find?_eq_none.mp hfind e he
    simpa using this
  unfold writeFile readFile?
  rw [hany]
  simp [List.find?_append, hfind]

/-- C9: for a non-paginated query with an items key, a fresh `search` call
returns only the extracted items list `results[key]`, while a later call
with `overwrite=False` and the persisted file present returns the entire
raw response mapping without a remote call — the two return values always
differ in shape. -/
theorem search_nonpaginated_cache_shape (k : String) (p : Path) (fs : Store)
    (kvs : List (String × Yaml)) (items : List Yaml) (remote2 : List Yaml)
    (herr : Yaml.get? (.map kvs) "error" = none)
    (hget : Yaml.getList (.map kvs) k = .ok items)
    (hfile : isFile fs p = false) :
    search (some k) false (some p) false fs [.map kvs]
      = .ok ⟨.list items, writeFile fs p (.yaml (.map kvs)), 1⟩
    ∧ search (some k) false (some p) false (writeFile fs p (.yaml (.map kvs))) remote2
      = .ok ⟨.map kvs, writeFile fs p (.yaml (.map kvs)), 0⟩
    ∧ Yaml.list items ≠ Yaml.map kvs := by
  refine ⟨?_, ?_, fun h => Yaml.noConfusion h⟩
  · simp [search, searchLoop, hfile, herr, hget]
  · simp [search, isFile, readFile_write_fresh fs p (.yaml (.map kvs)) hfile]

/-- Witness for C9 at a concrete response. -/
theorem search_nonpaginated_cache_shape_witness :
    Yaml.get? (.map c9Resp) "error" = none
    ∧ Yaml.getList (.map c9Resp) "articles" = .ok [.num 1]
    ∧ isFile [] [FName.plain "a.yaml"] = false
    ∧ (search (some "articles") false (some [FName.plain "a.yaml"]) false [] [.map c9Resp]
        = .ok ⟨.list [.num 1], writeFile [] [FName.plain "a.yaml"] (.yaml (.map c9Resp)), 1⟩
      ∧ search (some "articles") false (some [FName.plain "a.yaml"]) false
          (writeFile [] [FName.plain "a.yaml"] (.yaml (.map c9Resp))) []
        = .ok ⟨.map c9Resp, writeFile [] [FName.plain "a.yaml"] (.yaml (.map c9Resp)), 0⟩
      ∧ Yaml.list [.num 1] ≠ Yaml.map c9Resp) :=
  ⟨rfl, rfl, rfl,
    search_nonpaginated_cache_shape "articles" [FName.plain "a.yaml"] [] c9Resp
      [.num 1] [] rfl rfl rfl⟩

/-- C10: a paginated `search` with `overwrite=True` rewrites in place only the
page files for the ranges the fresh fetch produces and never deletes other
page files at the location; a subsequent `overwrite=False` load therefore
concatenates every file matching the range pattern, including the stale
page whose range the overwriting fetch did not re-produce. -/
theorem search_overwrite_keeps_stale_pages (xs1 xs2 xs3 ys1 ys2 : List Yaml)
    (h1 : xs1.length = 5) (h2 : xs2.length = 5) (h3 : xs3.length = 2)
    (g1 : ys1.length = 5) (g2 : ys2.length = 5) :
    search (some "articles") true (some articlesDir) true
        [(articlesDir ++ [.page "articles" 0 5], .yaml (mkPage "articles" xs1 true)),
         (articlesDir ++ [.page "articles" 5 10], .yaml (mkPage "articles" xs2 true)),
         (articlesDir ++ [.page "articles" 10 12], .yaml (mkPage "articles" xs3 false))]
        [mkPage "articles" ys1 true, mkPage "articles" ys2 false]
      = .ok ⟨.list (ys1 ++ ys2),
          [(articlesDir ++ [.page "articles" 0 5], .yaml (mkPage "articles" ys1 true)),
           (articlesDir ++ [.page "articles" 5 10], .yaml (mkPage "articles" ys2 false)),
           (articlesDir ++ [.page "articles" 10 12], .yaml (mkPage "articles" xs3 false))],
          2⟩
    ∧ search (some "articles") true (some articlesDir) false
        [(articlesDir ++ [.page "articles" 0 5], .yaml (mkPage "articles" ys1 true)),
         (articlesDir ++ [.page "articles" 5 10], .yaml (mkPage "articles" ys2 false)),
         (articlesDir ++ [.page "articles" 10 12], .yaml (mkPage "articles" xs3 false))]
        []
      = .ok ⟨.list (ys1 ++ ys2 ++ xs3),
          [(articlesDir ++ [.page "articles" 0 5], .yaml (mkPage "articles" ys1 true)),
           (articlesDir ++ [.page "articles" 5 10], .yaml (mkPage "articles" ys2 false)),
           (articlesDir ++ [.page "articles" 10 12], .yaml (mkPage "articles" xs3 false))],
          0⟩ := by
  constructor
  · simp [search, searchLoop, mkPage, hasNext, Yaml.get?, Yaml.getList, writeFile,
      List.lookup, articlesDir, h1, h2, h3, g1, g2, List.append_assoc]
  · simp [search, globPages, inDirMatching, matchesPagePattern, keyString, loadPages,
      loadPage, List.foldlM, List.filter, List.getLast?, List.getLast, List.dropLast,
      mkPage, Yaml.get?, Yaml.getList, List.lookup, articlesDir, List.append_assoc,
      Bind.bind, Except.bind, Pure.pure, Except.pure]

/-- Witness for C10 at concrete stale and fresh pages. -/
theorem search_overwrite_keeps_stale_pages_witness :
    pageItems1.length = 5 ∧ pageItems2.length = 5 ∧ pageItems3.length = 2
    ∧ freshItems1.length = 5 ∧ freshItems2.length = 5
    ∧ (search (some "articles") true (some articlesDir) true
        [(articlesDir ++ [.page "articles" 0 5], .yaml (mkPage "articles" pageItems1 true)),
         (articlesDir ++ [.page "articles" 5 10], .yaml (mkPage "articles" pageItems2 true)),
         (articlesDir ++ [.page "articles" 10 12], .yaml (mkPage "articles" pageItems3 false))]
        [mkPage "articles" freshItems1 true, mkPage "articles" freshItems2 false]
      = .ok ⟨.list (freshItems1 ++ freshItems2),
          [(articlesDir ++ [.page "articles" 0 5], .yaml (mkPage "articles" freshItems1 true)),
           (articlesDir ++ [.page "articles" 5 10], .yaml (mkPage "articles" freshItems2 false)),
           (articlesDir ++ [.page "articles" 10 12], .yaml (mkPage "articles" pageItems3 false))],
          2⟩
    ∧ search (some "articles") true (some articlesDir) false
        [(articlesDir ++ [.page "articles" 0 5], .yaml (mkPage "articles" freshItems1 true)),
         (articlesDir ++ [.page "articles" 5 10], .yaml (mkPage "articles" freshItems2 false)),
         (articlesDir ++ [.page "articles" 10 12], .yaml (mkPage "articles" pageItems3 false))]
        []
      = .ok ⟨.list (freshItems1 ++ freshItems2 ++ pageItems3),
          [(articlesDir ++ [.page "articles" 0 5], .yaml (mkPage "articles" freshItems1 true)),
           (articlesDir ++ [.page "articles" 5 10], .yaml (mkPage "articles" freshItems2 false)),
           (articlesDir ++ [.page "articles" 10 12], .yaml (mkPage "articles" pageItems3 false))],
          0⟩) :=
  ⟨rfl, rfl, rfl, rfl, rfl,
    search_overwrite_keeps_stale_pages pageItems1 pageItems2 pageItems3
      freshItems1 freshItems2 rfl rfl rfl rfl rfl⟩

/-! Infrastructure for the cached-roundtrip claim: an invariant tying the
page files present at the output location to the items fetched so far. -/

/-- Subtracting the second summand of an append length. -/
theorem length_append_sub (l1 l2 : List Yaml) :
    (l1 ++ l2).length - l2.length = l1.length := by
  simp [List.length_append]

/-- A page name placed in its directory matches the glob pattern. -/
theorem inDirMatching_concat (dir : Path) (k : String) (a b : Nat) :
    inDirMatching dir k (dir ++ [FName.page k a b]) = true := by
  simp [inDirMatching, matchesPagePattern]

/-- Writing to a path no file occupies appends the new file. -/
theorem writeFile_fresh (fs : Store) (p : Path) (v : FileData)
    (h : fs.any (fun e => e.1 == p) = false) :
    writeFile fs p v = fs ++ [(p, v)] := by
  unfold writeFile
  rw [h]
  simp

/-- Globbing after appending one matching file. -/
theorem globPages_append_one (fs : Store) (dir : Path) (k : String)
    (e : Path × FileData) (he : inDirMatching dir k e.1 = true) :
    globPages (fs ++ [e]) dir k = globPages fs dir k ++ [e] := by
  unfold globPages
  rw [List.filter_append]
  simp [he]

/-- Globbing commutes with a path-preserving rewrite of the store. -/
theorem globPages_map_pathPreserving (fs : Store) (dir : Path) (k : String)
    (g : Path × FileData → Path × FileData) (hg : ∀ e, (g e).1 = e.1) :
    globPages (fs.map g) dir k = (globPages fs dir k).map g := by
  unfold globPages
  rw [List.filter_map]
  congr 1
  apply List.filter_congr
  intro e _
  simp [Function.comp, hg e]

/-- The cached-load fold is unchanged by a rewrite of the files that does not
change any single load step. -/
theorem foldlM_loadPage_map_congr (k : String)
    (g : Path × FileData → Path × FileData) (l : List (Path × FileData))
    (hg : ∀ e ∈ l, ∀ acc, loadPage (some k) acc (g e) = loadPage (some k) acc e) :
    ∀ init, (l.map g).foldlM (loadPage (some k)) init = l.foldlM (loadPage (some k)) init := by
  induction l with
  | nil => intro init; rfl
  | cons e t ih =>
    intro init
    simp only [List.map_cons, List.foldlM_cons]
    rw [hg e (List.mem_cons_self e t) init]
    cases h : loadPage (some k) init e with
    | error msg => rfl
    | ok acc1 =>
      show (t.map g).foldlM (loadPage (some k)) acc1 = t.foldlM (loadPage (some k)) acc1
      exact ih (fun e' he' acc => hg e' (List.mem_cons_of_mem e he') acc) acc1

/-- Persisting one fetched page preserves the cache invariant: the globbed
page files reload to exactly the items accumulated so far.  A range
collision can only happen for an empty page (`new = []`), in which case the
colliding file is rewritten in place and both contribute no items. -/
theorem writeFile_page_invariant (k : String) (dir : Path) (fs : Store)
    (out0 new : List Yaml) (results : Yaml)
    (hload : loadPages (some k) (globPages fs dir k) = .ok out0)
    (hok : ∀ e ∈ globPages fs dir k, pageOK k out0.length e)
    (hglk : results.getList k = .ok new) :
    loadPages (some k)
        (globPages (writeFile fs (dir ++ [FName.page k out0.length (out0 ++ new).length])
          (.yaml results)) dir k) = .ok (out0 ++ new)
    ∧ (∀ e ∈ globPages (writeFile fs (dir ++ [FName.page k out0.length (out0 ++ new).length])
          (.yaml results)) dir k, pageOK k (out0 ++ new).length e)
    ∧ globPages (writeFile fs (dir ++ [FName.page k out0.length (out0 ++ new).length])
          (.yaml results)) dir k ≠ [] := by
  set p : Path := dir ++ [FName.page k out0.length (out0 ++ new).length] with hp
  cases hany : fs.any (fun e => e.1 == p) with
  | false =>
    rw [writeFile_fresh fs p (.yaml results) hany]
    have hmatch : inDirMatching dir k p = true := inDirMatching_concat dir k _ _
    rw [globPages_append_one fs dir k (p, .yaml results) hmatch]
    refine ⟨?_, ?_, by simp⟩
    · unfold loadPages at hload ⊢
      rw [List.foldlM_append, hload]
      simp [loadPage, hglk, Bind.bind, Except.bind, Pure.pure, Except.pure]
    · intro e he
      rcases List.mem_append.mp he with hold | hnew
      · obtain ⟨a, b, y, ys, hn, hy, hl, hll, hb⟩ := hok e hold
        exact ⟨a, b, y, ys, hn, hy, hl, hll,
          le_trans hb (by simp [List.length_append])⟩
      · rw [List.mem_singleton.mp hnew]
        refine ⟨out0.length, (out0 ++ new).length, results, new, ?_, rfl, hglk, ?_, le_refl _⟩
        · simp [hp]
        · simp [List.length_append]
  | true =>
    obtain ⟨e0, he0mem, he0p⟩ := List.any_eq_true.mp hany
    have he0path : e0.1 = p := by simpa using he0p
    have he0glob : e0 ∈ globPages fs dir k := by
      unfold globPages
      rw [List.mem_filter]
      exact ⟨he0mem, by rw [he0path]; exact inDirMatching_concat dir k _ _⟩
    obtain ⟨a, b, y, ys, hn, hy, hl, hll, hb⟩ := hok e0 he0glob
    rw [he0path, hp, List.getLast?_concat] at hn
    have hab : out0.length = a ∧ (out0 ++ new).length = b := by
      have := Option.some.inj hn
      exact ⟨by injection this, by injection this⟩
    have hnew : new = [] := by
      have : out0.length + new.length ≤ out0.length := by
        rw [← List.length_append, hab.2]
        exact hab.1 ▸ hb
      exact List.length_eq_zero.mp (by omega)
    subst hnew
    have hys : ys = [] := by
      refine List.length_eq_zero.mp ?_
      rw [hll, ← hab.1, ← hab.2]
      simp
    subst hys
    -- the write rewrites every file at the colliding path in place
    have hgpath : ∀ e : Path × FileData,
        ((if e.1 == p then (p, FileData.yaml results) else e) : Path × FileData).1 = e.1 := by
      intro e
      by_cases h : (e.1 == p) = true
      · simp [h, eq_of_beq h]
      · simp [eq_false_of_ne_true h]
    have hw : writeFile fs p (.yaml results)
        = fs.map (fun e => if e.1 == p then (p, FileData.yaml results) else e) := by
      unfold writeFile
      rw [hany]
      simp
    rw [hw, globPages_map_pathPreserving fs dir k _ hgpath]
    have hcong : ∀ e ∈ globPages fs dir k, ∀ acc,
        loadPage (some k) acc ((if e.1 == p then (p, FileData.yaml results) else e))
          = loadPage (some k) acc e := by
      intro e he acc
      by_cases hep : (e.1 == p) = true
      · obtain ⟨a', b', y', ys', hn', hy', hl', hll', hb'⟩ := hok e he
        have hepath : e.1 = p := eq_of_beq hep
        rw [hepath, hp, List.getLast?_concat] at hn'
        have hab' : out0.length = a' ∧ (out0 ++ ([] : List Yaml)).length = b' := by
          have := Option.some.inj hn'
          exact ⟨by injection this, by injection this⟩
        have hys' : ys' = [] := by
          refine List.length_eq_zero.mp ?_
          rw [hll', ← hab'.1, ← hab'.2]
          simp
        subst hys'
        simp only [hep, if_true]
        cases e with
        | mk q d =>
          cases hy'
          simp [loadPage, hglk, hl']
      · simp [hep]
    constructor
    · rw [loadPages, foldlM_loadPage_map_congr k _ (globPages fs dir k) hcong []]
      rw [← loadPages, hload]
      simp
    constructor
    · intro e' he'
      obtain ⟨e, he, hge⟩ := List.mem_map.mp he'
      by_cases hep : (e.1 == p) = true
      · rw [← hge]
        simp only [hep, if_true]
        refine ⟨out0.length, (out0 ++ ([] : List Yaml)).length, results, [], ?_, rfl, hglk, ?_, le_refl _⟩
        · simp [hp]
        · simp
      · rw [← hge]
        simp only [eq_false_of_ne_true hep, if_false]
        obtain ⟨a', b', y', ys', hn', hy', hl', hll', hb'⟩ := hok e he
        exact ⟨a', b', y', ys', hn', hy', hl', hll', by simpa using hb'⟩
    · exact List.ne_nil_of_mem (List.mem_map_of_mem _ he0glob)

/-- A successful live paginated fetch starting from a cache that satisfies
the invariant leaves page files behind whose cached reload reproduces
exactly the returned item list. -/
theorem searchLoop_establishes_cache (k : String) (dir : Path) (remote : List Yaml) :
    ∀ (fs : Store) (out0 : List Yaml) (f : Nat) (res : FetchResult),
      loadPages (some k) (globPages fs dir k) = .ok out0 →
      (∀ e ∈ globPages fs dir k, pageOK k out0.length e) →
      searchLoop (some k) true (some dir) fs remote out0 f = .ok res →
      ∃ outF, res.output = .list outF
        ∧ loadPages (some k) (globPages res.fs dir k) = .ok outF
        ∧ (∀ e ∈ globPages res.fs dir k, pageOK k outF.length e)
        ∧ globPages res.fs dir k ≠ [] := by
  induction remote with
  | nil =>
    intro fs out0 f res _ _ hrun
    simp [searchLoop] at hrun
  | cons results rest ih =>
    intro fs out0 f res hload hok hrun
    rw [searchLoop] at hrun
    cases herr : (results.get? "error").isSome with
    | true => rw [herr] at hrun; simp at hrun
    | false =>
      rw [herr] at hrun
      cases hglk : results.getList k with
      | error msg => rw [hglk] at hrun; simp at hrun
      | ok new =>
        rw [hglk] at hrun
        simp only [Bool.false_eq_true, if_false, if_true, length_append_sub,
          Bool.true_and] at hrun
        obtain ⟨hl1, hok1, hne1⟩ :=
          writeFile_page_invariant k dir fs out0 new results hload hok hglk
        cases hnx : hasNext results with
        | true =>
          rw [hnx] at hrun
          simp only [if_true] at hrun
          exact ih _ _ _ _ hl1 hok1 hrun
        | false =>
          rw [hnx] at hrun
          simp only [Bool.false_eq_true, if_false, if_true] at hrun
          injection hrun with h
          subst h
          exact ⟨out0 ++ new, rfl, hl1, hok1, hne1⟩

/-- One cached-load step is the accumulator followed by the page's block. -/
theorem loadPage_eq_pageLoad (k : String) (acc : List Yaml) (e : Path × FileData) :
    loadPage (some k) acc e
      = match pageLoad k e with
        | .ok xs => .ok (acc ++ xs)
        | .error er => .error er := by
  cases e with
  | mk p d =>
    cases d with
    | yaml y => rfl
    | html doc => rfl

/-- A successful cached load means every globbed file's block loads. -/
theorem foldlM_loadPage_ok_pointwise (k : String) :
    ∀ (l : List (Path × FileData)) (init out : List Yaml),
      l.foldlM (loadPage (some k)) init = .ok out →
      ∀ e ∈ l, ∃ ys, pageLoad k e = .ok ys := by
  intro l
  induction l with
  | nil => intro init out _ e he; cases he
  | cons a t ih =>
    intro init out hfold e he
    rw [List.foldlM_cons, loadPage_eq_pageLoad k init a] at hfold
    cases hpl : pageLoad k a with
    | error msg =>
      rw [hpl] at hfold
      simp [Bind.bind, Except.bind] at hfold
    | ok ys =>
      rw [hpl] at hfold
      rcases List.mem_cons.mp he with rfl | het
      · exact ⟨ys, hpl⟩
      · exact ih (init ++ ys) out hfold e het

/-- When every file's block loads, the cached load returns the concatenation
of the blocks in the enumeration order of the file list. -/
theorem foldlM_loadPage_join (k : String) :
    ∀ (l : List (Path × FileData)),
      (∀ e ∈ l, ∃ ys, pageLoad k e = .ok ys) →
      ∀ init, l.foldlM (loadPage (some k)) init
        = .ok (init ++ (l.map (pageBlock k)).flatten) := by
  intro l
  induction l with
  | nil => intro _ init; simp [Pure.pure, Except.pure]
  | cons a t ih =>
    intro h init
    obtain ⟨ys, hys⟩ := h a (List.mem_cons_self a t)
    have hblock : pageBlock k a = ys := by simp [pageBlock, hys, Except.toOption]
    rw [List.foldlM_cons, loadPage_eq_pageLoad k init a, hys]
    show t.foldlM (loadPage (some k)) (init ++ ys) = _
    rw [ih (fun e he => h e (List.mem_cons_of_mem a he)) (init ++ ys)]
    simp [hblock, List.append_assoc]

/-- C4 (counterexample): the fresh three-page run records the pages in the
order 0-5, 5-10, 10-12 and returns their items in that order; the very same
three page files, enumerated by the filesystem in lexicographic name order
(an admissible `Path.glob` enumeration, since glob guarantees no order and
the source does not sort), reload with `overwrite=False` to the items in the
order 0-5, 10-12, 5-10 — not the recorded page order. -/
theorem search_recorded_order_counterexample :
    search (some "articles") true (some articlesDir) true []
        [mkPage "articles" pageItems1 true, mkPage "articles" pageItems2 true,
         mkPage "articles" pageItems3 false]
      = .ok ⟨.list (pageItems1 ++ pageItems2 ++ pageItems3), c4Store, 3⟩
    ∧ c4StoreLex.Perm c4Store
    ∧ search (some "articles") true (some articlesDir) false c4StoreLex []
      = .ok ⟨.list (pageItems1 ++ pageItems3 ++ pageItems2), c4StoreLex, 0⟩
    ∧ Yaml.list (pageItems1 ++ pageItems3 ++ pageItems2)
        ≠ Yaml.list (pageItems1 ++ pageItems2 ++ pageItems3) := by
  refine ⟨rfl, ?_, rfl, ?_⟩
  · unfold c4StoreLex c4Store
    exact List.Perm.cons _ (List.Perm.swap _ _ _)
  · intro h
    simp [pageItems1, pageItems2, pageItems3] at h

/-- C4 (amended): for a paginated query run fresh against a location holding
no matching page files, running `search` again with `overwrite=False` — under
any filesystem enumeration of the persisted directory, i.e. any permutation
of the store the run produced — performs no remote call, leaves the cache
untouched, and returns the persisted pages' item blocks concatenated in that
enumeration order: a page-granularity permutation of the originally fetched
items, not necessarily the recorded page order. -/
theorem search_cached_load_any_order (k : String) (dir : Path)
    (fs0 : Store) (remote remote2 : List Yaml) (out : Yaml) (fs1 fs1' : Store) (n : Nat)
    (hglob : globPages fs0 dir k = [])
    (hrun : search (some k) true (some dir) true fs0 remote = .ok ⟨out, fs1, n⟩)
    (hperm : fs1'.Perm fs1) :
    ∃ outRec, out = .list outRec
      ∧ search (some k) true (some dir) false fs1' remote2
          = .ok ⟨.list (((globPages fs1' dir k).map (pageBlock k)).flatten), fs1', 0⟩
      ∧ (((globPages fs1' dir k).map (pageBlock k)).flatten).Perm outRec := by
  have hloop : searchLoop (some k) true (some dir) fs0 remote [] 0 = .ok ⟨out, fs1, n⟩ := hrun
  obtain ⟨outRec, houtput, hload1, _, hne⟩ :=
    searchLoop_establishes_cache k dir remote fs0 [] 0 ⟨out, fs1, n⟩
      (by rw [hglob]; rfl) (by rw [hglob]; intro e he; cases he) hloop
  have hgperm : (globPages fs1' dir k).Perm (globPages fs1 dir k) := hperm.filter _
  have hpw : ∀ e ∈ globPages fs1 dir k, ∃ ys, pageLoad k e = .ok ys :=
    foldlM_loadPage_ok_pointwise k _ [] outRec hload1
  have hpw' : ∀ e ∈ globPages fs1' dir k, ∃ ys, pageLoad k e = .ok ys :=
    fun e he => hpw e (hgperm.subset he)
  have hrec : outRec = ((globPages fs1 dir k).map (pageBlock k)).flatten := by
    have hj := foldlM_loadPage_join k (globPages fs1 dir k) hpw []
    unfold loadPages at hload1
    rw [hj] at hload1
    simpa using (Except.ok.inj hload1).symm
  have hload' : loadPages (some k) (globPages fs1' dir k)
      = .ok (((globPages fs1' dir k).map (pageBlock k)).flatten) := by
    have hj := foldlM_loadPage_join k (globPages fs1' dir k) hpw' []
    unfold loadPages
    simpa using hj
  have hne' : globPages fs1' dir k ≠ [] := by
    intro h
    apply hne
    have hlen := hgperm.length_eq
    rw [h] at hlen
    exact List.length_eq_zero.mp hlen.symm
  have hpos : 0 < (globPages fs1' dir k).length := List.length_pos.mpr hne'
  have hbranch : search (some k) true (some dir) false fs1' remote2
      = if 0 < (globPages fs1' dir k).length then
          (match loadPages (some k) (globPages fs1' dir k) with
           | .ok o => .ok ⟨.list o, fs1', 0⟩
           | .error e => .error e)
        else searchLoop (some k) true (some dir) fs1' remote2 [] 0 := rfl
  refine ⟨outRec, houtput, ?_, ?_⟩
  · rw [hbranch, if_pos hpos, hload']
  · rw [hrec]
    exact (hgperm.map (pageBlock k)).flatten

/-- Witness for the amended C4: the concrete three-page run reloaded under
the lexicographic enumeration of its page files. -/
theorem search_cached_load_any_order_witness :
    globPages [] articlesDir "articles" = []
    ∧ search (some "articles") true (some articlesDir) true []
        [mkPage "articles" pageItems1 true, mkPage "articles" pageItems2 true,
         mkPage "articles" pageItems3 false]
      = .ok ⟨.list (pageItems1 ++ pageItems2 ++ pageItems3), c4Store, 3⟩
    ∧ c4StoreLex.Perm c4Store
    ∧ ∃ outRec, Yaml.list (pageItems1 ++ pageItems2 ++ pageItems3) = .list outRec
        ∧ search (some "articles") true (some articlesDir) false c4StoreLex []
            = .ok ⟨.list (((globPages c4StoreLex articlesDir "articles").map
                (pageBlock "articles")).flatten), c4StoreLex, 0⟩
        ∧ (((globPages c4StoreLex articlesDir "articles").map
            (pageBlock "articles")).flatten).Perm outRec :=
  ⟨rfl, rfl,
    (by unfold c4StoreLex c4Store; exact List.Perm.cons _ (List.Perm.swap _ _ _)),
    search_cached_load_any_order "articles" articlesDir []
      [mkPage "articles" pageItems1 true, mkPage "articles" pageItems2 true,
       mkPage "articles" pageItems3 false] []
      (.list (pageItems1 ++ pageItems2 ++ pageItems3)) c4Store c4StoreLex 3 rfl rfl
      (by unfold c4StoreLex c4Store; exact List.Perm.cons _ (List.Perm.swap _ _ _))⟩

end ScholarScraper
